import Mathlib

/-!
Verification development for the dome controller in
forPi/CerebriCaeliV3.py. The Python functions are shallowly embedded as
Lean definitions over exact rational arithmetic; Python exceptions are
modelled with Except, and Python attribute lookup is modelled explicitly
where the source reads an attribute that the constructor never assigns.
-/

/-- Exceptions that the modelled code paths can raise. -/
inductive PyExc
  | attributeError
  | valueError
  | ioError
deriving DecidableEq

/-- Python float modulo for a positive divisor: the remainder carries the
sign of the divisor, a - b * floor(a / b). -/
def pymod (a b : ℚ) : ℚ := a - b * ((⌊a / b⌋ : ℤ) : ℚ)

/-- Python int() applied to a number: truncation toward zero. -/
def pyInt (q : ℚ) : ℤ := if 0 ≤ q then ⌊q⌋ else -⌊-q⌋

/-- Value of the Python constant math.pi, written through its shortest
decimal representation; none of the theorems below depends on more than a
coarse approximation of it. -/
def mathPi : ℚ := 3.141592653589793

/-- Python str() of a bool, as written to shutter_status.txt. -/
def pyStr (b : Bool) : String := if b then "True" else "False"

/-- Python truthiness of a str: a string is truthy exactly when nonempty. -/
def pyBool (s : String) : Bool := !(s == "")

/-- Attribute access s.decode on a Python 3 str: the str type has no
decode method, so the lookup itself raises AttributeError whatever the
contents are. -/
def strDecode (_s : String) : Except PyExc String := Except.error PyExc.attributeError

/-- Whitespace characters stripped by the numeric constructors. -/
def isPyWs (c : Char) : Bool := c == ' ' || c == '\n' || c == '\t' || c == '\r'

/-- Strip leading and trailing whitespace from a character list. -/
def stripWs (cs : List Char) : List Char :=
  ((cs.dropWhile isPyWs).reverse.dropWhile isPyWs).reverse

/-- Value of a list of decimal digit characters. -/
def digitsToNat (cs : List Char) : ℕ :=
  cs.foldl (fun n c => 10 * n + (c.toNat - 48)) 0

/-- Unsigned decimal literal: digits with an optional fractional part; at
least one digit must be present on one side of the optional dot. -/
def parseUnsigned (cs : List Char) : Option ℚ :=
  let intPart := cs.takeWhile (fun c => c ≠ '.')
  let rest := cs.dropWhile (fun c => c ≠ '.')
  match rest with
  | [] =>
      if intPart ≠ [] ∧ intPart.all Char.isDigit then
        some ((digitsToNat intPart : ℚ))
      else none
  | _ :: frac =>
      if (intPart ≠ [] ∨ frac ≠ []) ∧ intPart.all Char.isDigit ∧ frac.all Char.isDigit then
        some ((digitsToNat intPart : ℚ) + (digitsToNat frac : ℚ) / ((10 : ℚ) ^ frac.length))
      else none

/-- Model of the Python builtin float() on the message grammar this system
exchanges: optional surrounding whitespace, an optional sign and a decimal
literal; any other text raises ValueError. -/
def pyParseFloat (s : String) : Except PyExc ℚ :=
  match stripWs s.data with
  | '-' :: cs =>
      match parseUnsigned cs with
      | some q => Except.ok (-q)
      | none => Except.error PyExc.valueError
  | '+' :: cs =>
      match parseUnsigned cs with
      | some q => Except.ok q
      | none => Except.error PyExc.valueError
  | cs =>
      match parseUnsigned cs with
      | some q => Except.ok q
      | none => Except.error PyExc.valueError

/-- Model of the Python builtin int() on text: optional whitespace, an
optional sign and decimal digits; any other text raises ValueError. -/
def pyParseInt (s : String) : Except PyExc ℤ :=
  match stripWs s.data with
  | '-' :: cs =>
      if cs ≠ [] ∧ cs.all Char.isDigit then Except.ok (-(digitsToNat cs : ℤ))
      else Except.error PyExc.valueError
  | '+' :: cs =>
      if cs ≠ [] ∧ cs.all Char.isDigit then Except.ok ((digitsToNat cs : ℤ))
      else Except.error PyExc.valueError
  | cs =>
      if cs ≠ [] ∧ cs.all Char.isDigit then Except.ok ((digitsToNat cs : ℤ))
      else Except.error PyExc.valueError

/-- Calibration and configuration constants read from config.ini; the file
itself is not part of the repository, so the concrete values are left as
parameters of the model. -/
structure Config where
  resolution : ℤ
  wheel_circumference_mm : ℤ
  diameter_mm : ℤ
  home_rotation : ℤ
  sync_threshold : ℤ
  decel_angle : ℚ
  open_time : ℤ
  close_time : ℤ
  control_box_rotation : ℤ
  die_counter_min : ℚ
deriving DecidableEq

/-- The fields of Encoder relevant to position tracking (source lines
77 to 121): the calibration constants and the shared counter cell. -/
structure Encoder where
  dome_diameter : ℤ
  resolution : ℤ
  wheel_circumference_mm : ℤ
  counter : ℤ
deriving DecidableEq

/-- Source lines 107 to 116: the fallback seed for the counter when the
persisted record cannot be read, int(home_rotation / 360 *
(math.pi * dome_diameter) / wheel_circumference_mm * resolution); the
Encoder is constructed with dome_diameter set to the configured
diameter_mm (lines 198 and 206). -/
def homeClicks (cfg : Config) : ℤ :=
  pyInt ((cfg.home_rotation : ℚ) / 360 * (mathPi * (cfg.diameter_mm : ℚ))
    / (cfg.wheel_circumference_mm : ℚ) * (cfg.resolution : ℚ))

/-- Source lines 100 to 116 of Encoder.__init__: dome_rotation.txt is
opened in text mode, so read() yields a str, and the subsequent
.decode("utf-8") raises AttributeError because Python 3 str has no decode
method; the except block catches every exception and seeds the counter
from the configured home rotation instead. The argument is the contents
of dome_rotation.txt, none when the file is missing. -/
def encoderInitCounter (cfg : Config) (fileContents : Option String) : ℤ :=
  match (match fileContents with
         | none => Except.error PyExc.ioError
         | some s =>
             match strDecode s with
             | Except.error e => Except.error e
             | Except.ok t => pyParseInt t) with
  | Except.ok v => v
  | Except.error _ => homeClicks cfg

/-- One detected transition of the encoder polling loop (source lines 133
to 144): when the clock state changed, the counter moves by exactly one
step, down when the data state differs from the new clock state and up
otherwise, and the new value is immediately written to dome_rotation.txt
as decimal text; when the clock state is unchanged nothing happens. -/
def encoderStep (clkState dtState clkLastState : Bool) (counter : ℤ) :
    ℤ × Option String :=
  if clkState ≠ clkLastState then
    let c := if dtState ≠ clkState then counter - 1 else counter + 1
    (c, some (toString c))
  else (counter, none)

/-- The Observatory instance attributes assigned by __init__ (source lines
174 to 225) that the functions modelled below read. -/
structure Observatory where
  is_shutter_open : Bool
  open_time : ℤ
  close_time : ℤ
  control_box_rotation : ℤ
  decel_angle : ℚ
  target_rotation : ℚ
  sync_threshold : ℤ
  diameter : ℤ
  encoder : Encoder
deriving DecidableEq

/-- Attribute names that the modelled Observatory methods look up
dynamically. -/
inductive ObsAttr
  | diameter
  | dome_diameter
deriving DecidableEq

/-- Python attribute lookup on the Observatory instance: __init__ assigns
the configured dome diameter to the attribute diameter (line 198) and
assigns no attribute named dome_diameter, nor does the class body define
one, so looking dome_diameter up fails (none models AttributeError). -/
def Observatory.numAttr (o : Observatory) : ObsAttr → Option ℤ
  | ObsAttr.diameter => some o.diameter
  | ObsAttr.dome_diameter => none

/-- Observatory._clicks_to_degrees (source lines 263 to 279): computes
clicks / self.encoder.resolution * self.encoder.wheel_circumference_mm /
(math.pi * self.dome_diameter) * 360; the read of self.dome_diameter
raises AttributeError, since the constructor stored the diameter under
the name diameter. -/
def Observatory.clicksToDegrees (o : Observatory) (clicks : ℤ) : Except PyExc ℚ :=
  match o.numAttr ObsAttr.dome_diameter with
  | none => Except.error PyExc.attributeError
  | some d =>
      Except.ok ((clicks : ℚ) / (o.encoder.resolution : ℚ)
        * (o.encoder.wheel_circumference_mm : ℚ) / (mathPi * (d : ℚ)) * 360)

/-- Observatory._normalize_to_360 (source lines 332 to 342):
(value + 360) % 360 with Python float modulo. -/
def normalizeTo360 (value : ℚ) : ℚ := pymod (value + 360) 360

/-- Rotation direction handed to _sync. -/
inductive RotDir
  | cw
  | ccw
deriving DecidableEq

/-- The decision block of Observatory.check_for_sync (source lines 366 to
383), as a function of the local values target, shutter and threshold
computed in lines 354 to 364: the command handed to _sync (direction and
edge flag), or none when the dome is deemed inside the deadband. -/
def syncDecision (target shutter threshold : ℚ) : Option (RotDir × Bool) :=
  let low := normalizeTo360 (target - threshold)
  let high := normalizeTo360 (target + threshold)
  if abs (high - target) = threshold ∧ threshold = abs (target - low) then
    if ¬ (low ≤ shutter ∧ shutter ≤ high) then
      if shutter > high then some (RotDir.ccw, false) else some (RotDir.cw, false)
    else none
  else
    let lowMoved := pymod (low + 180) 360
    let highMoved := pymod (high + 180) 360
    let shutterMoved := pymod (shutter + 180) 360
    if ¬ (lowMoved ≤ shutterMoved ∧ shutterMoved ≤ highMoved) then
      if shutter > high then some (RotDir.ccw, true) else some (RotDir.cw, true)
    else none

/-- Observatory.check_for_sync (source lines 344 to 383): stores the
requested target, computes the current dome angle from the encoder counter
through _clicks_to_degrees, chooses the threshold (the configured
sync_threshold, or zero when force_sync), and runs the decision block.
The value is the command handed to _sync, none when no rotation is
triggered, or the exception raised while computing the angle. -/
def checkForSync (o : Observatory) (target_rotation_from_socket : ℚ)
    (force_sync : Bool) : Except PyExc (Option (RotDir × Bool)) :=
  match o.clicksToDegrees o.encoder.counter with
  | Except.error e => Except.error e
  | Except.ok deg =>
      let target := target_rotation_from_socket
      let shutter := normalizeTo360 deg
      let threshold : ℚ := if !force_sync then (o.sync_threshold : ℚ) else 0
      Except.ok (syncDecision target shutter threshold)

/-- Operation names accepted by Observatory.operate (the keys of the
operations dictionary, source lines 208 to 213). The Python names close
and open are Lean keywords, hence the Op suffix. -/
inductive RelayOp
  | rotate_ccw
  | rotate_cw
  | closeOp
  | openOp
deriving DecidableEq

/-- The four relay output pins (source lines 56 to 61). -/
inductive RelayPin
  | ccw
  | cw
  | closePin
  | openPin
deriving DecidableEq

/-- The operations dictionary (source lines 208 to 213), mapping operation
names to relay pin names. -/
def operationsMap : RelayOp → RelayPin
  | RelayOp.rotate_ccw => RelayPin.ccw
  | RelayOp.rotate_cw => RelayPin.cw
  | RelayOp.closeOp => RelayPin.closePin
  | RelayOp.openOp => RelayPin.openPin

/-- Observable effect of the status-is-None branch of Observatory.operate
(source lines 241 to 258): the selected relay pin is driven high, held for
the duration chosen by open_logic from the current state (close_time when
the shutter is open, open_time when it is closed), the in-memory flag is
flipped, the flipped value is written to shutter_status.txt as text, and
only then is the pin driven low; so the persisted record is updated before
the operation completes. -/
structure ToggleEffect where
  pin : RelayPin
  hold : ℤ
  newIsOpen : Bool
  persisted : String
deriving DecidableEq

/-- The two branches of the source if are kept: both flip the flag and
write its text, differing only in the sleep duration taken from
open_logic. -/
def operateToggle (operation : RelayOp) (isOpen : Bool)
    (open_time close_time : ℤ) : ToggleEffect :=
  if isOpen then
    { pin := operationsMap operation, hold := close_time,
      newIsOpen := !isOpen, persisted := pyStr (!isOpen) }
  else
    { pin := operationsMap operation, hold := open_time,
      newIsOpen := !isOpen, persisted := pyStr (!isOpen) }

/-- Observatory.__init__ lines 175 to 180: shutter_status.txt is opened in
binary mode, read() yields bytes, decode succeeds, and bool() is applied
to the resulting text; a Python string is truthy exactly when nonempty, so
any nonempty record is read back as True, and an unreadable file falls
back to False through the except branch. -/
def shutterInit (fileContents : Option String) : Bool :=
  match fileContents with
  | some s => pyBool s
  | none => false

/-- What Observatory.return_home does, in order: the shutter toggle it
runs and the arguments and outcome of the check_for_sync call. -/
structure ReturnHomeTrace where
  toggle : ToggleEffect
  syncTarget : ℚ
  syncForce : Bool
  syncResult : Except PyExc (Option (RotDir × Bool))

/-- Observatory.return_home (source lines 385 to 393): unconditionally
calls operate with operation close and no status, which is the timed
shutter toggle, then calls check_for_sync with the configured home
rotation and force_sync true. -/
def returnHome (o : Observatory) (cfg : Config) : ReturnHomeTrace :=
  let t := operateToggle RelayOp.closeOp o.is_shutter_open o.open_time o.close_time
  let o1 : Observatory := { o with is_shutter_open := t.newIsOpen }
  { toggle := t, syncTarget := (cfg.home_rotation : ℚ), syncForce := true,
    syncResult := checkForSync o1 (cfg.home_rotation : ℚ) true }

/-- The shared state touched by Socket.__death_count. -/
structure DeathState where
  can_die : Bool
  die_counter : ℚ
  is_home_value : ℤ
  returnHomeCalls : ℕ
deriving DecidableEq

/-- Truthiness of a multiprocessing.Value wrapper object itself, as
opposed to the truthiness of its stored .value: the wrapper defines
neither __bool__ nor __len__, so Python deems the object truthy whatever
integer it stores. -/
def valueWrapperTruthy (_stored : ℤ) : Bool := true

/-- One iteration of Socket.__death_count (source lines 449 to 479). The
loop runs while can_die; each pass sleeps one second, then line 455 tests
self.observatory.encoder.is_home, which is the shared-value wrapper
object itself rather than its .value field, so the continue is taken on
every pass regardless of the stored integer. The rest of the body, the
decrement, the staged warnings and the firing branch that calls
return_home, disarms and resets the counter to the ceiling, is translated
below but never reached. -/
def deathTick (ceiling : ℚ) (s : DeathState) : DeathState :=
  if !s.can_die then s
  else if valueWrapperTruthy s.is_home_value then s
  else
    let d := s.die_counter - 1
    if d < 0 then
      { s with die_counter := ceiling, can_die := false, returnHomeCalls := s.returnHomeCalls + 1 }
    else
      { s with die_counter := d }

/-- n iterations of the death-count loop body. -/
def deathIter (ceiling : ℚ) : ℕ → DeathState → DeathState
  | 0, s => s
  | n + 1, s => deathIter ceiling n (deathTick ceiling s)

/-- The shared state touched by Socket.__read_from_socket. -/
structure SrvState where
  can_die : Bool
  die_counter : ℚ
  dataVal : ℚ
deriving DecidableEq

/-- Handling of one accepted connection inside the while loop of
Socket.__read_from_socket (source lines 426 to 438). An empty message is
skipped by continue. Otherwise can_die is set (lines 431 and 432 toggle it
exactly when it is unset, so it ends up true either way) and die_counter
is reset to the configured ceiling, both before the message text is
parsed. The try block wraps the entire accept loop, so an exception, be it
the ValueError from float() on nonnumeric text or the AttributeError
raised inside check_for_sync, escapes the while loop, is logged, and the
accept loop terminates. The second component is the azimuth dispatched to
check_for_sync when one is, and the third reports whether the accept loop
reaches its next iteration. -/
def handleMessage (cfg : Config) (o : Observatory) (st : SrvState)
    (data : String) : SrvState × Option ℚ × Bool :=
  if data = "" then (st, none, true)
  else
    let st1 : SrvState :=
      { st with can_die := true, die_counter := cfg.die_counter_min * 60 }
    match pyParseFloat data with
    | Except.error _ => (st1, none, false)
    | Except.ok v =>
        let st2 : SrvState := { st1 with dataVal := v }
        match checkForSync o v false with
        | Except.error _ => (st2, some v, false)
        | Except.ok _ => (st2, some v, true)

/-- A concrete configuration used for the concrete evaluations below; the
claims settled at concrete inputs do not depend on the particular
calibration numbers. -/
def cfg0 : Config :=
  { resolution := 600, wheel_circumference_mm := 200, diameter_mm := 2000,
    home_rotation := 0, sync_threshold := 5, decel_angle := 3 / 2,
    open_time := 20, close_time := 25, control_box_rotation := 0,
    die_counter_min := 30 }

/-- A concrete encoder state built from cfg0. -/
def enc0 : Encoder :=
  { dome_diameter := 2000, resolution := 600, wheel_circumference_mm := 200,
    counter := 0 }

/-- A concrete Observatory state built from cfg0, shutter closed. -/
def obs0 : Observatory :=
  { is_shutter_open := false, open_time := 20, close_time := 25,
    control_box_rotation := 0, decel_angle := 3 / 2, target_rotation := 0,
    sync_threshold := 5, diameter := 2000, encoder := enc0 }

/-- A concrete command-server state, watchdog not yet armed. -/
def srv0 : SrvState := { can_die := false, die_counter := 1800, dataVal := 0 }

/-- The watchdog scenario of the spec: armed, stored is_home integer zero
(dome away from home), counter at ten seconds, no return_home call yet. -/
def dstate0 : DeathState :=
  { can_die := true, die_counter := 10, is_home_value := 0,
    returnHomeCalls := 0 }

/-! Helper lemmas: concrete evaluations of the angle arithmetic. -/

theorem floor_365_360 : ⌊((10 : ℚ) - 5 + 360) / 360⌋ = 1 := by
  rw [Int.floor_eq_iff]
  norm_num

theorem floor_375_360 : ⌊((10 : ℚ) + 5 + 360) / 360⌋ = 1 := by
  rw [Int.floor_eq_iff]
  norm_num

theorem floor_535_360 : ⌊((180 : ℚ) - 5 + 360) / 360⌋ = 1 := by
  rw [Int.floor_eq_iff]
  norm_num

theorem floor_545_360 : ⌊((180 : ℚ) + 5 + 360) / 360⌋ = 1 := by
  rw [Int.floor_eq_iff]
  norm_num

theorem normalize_low_10 : normalizeTo360 ((10 : ℚ) - 5) = 5 := by
  unfold normalizeTo360 pymod
  rw [floor_365_360]
  norm_num

theorem normalize_high_10 : normalizeTo360 ((10 : ℚ) + 5) = 15 := by
  unfold normalizeTo360 pymod
  rw [floor_375_360]
  norm_num

theorem normalize_low_180 : normalizeTo360 ((180 : ℚ) - 5) = 175 := by
  unfold normalizeTo360 pymod
  rw [floor_535_360]
  norm_num

theorem normalize_high_180 : normalizeTo360 ((180 : ℚ) + 5) = 185 := by
  unfold normalizeTo360 pymod
  rw [floor_545_360]
  norm_num

theorem syncDecision_10_350_5 : syncDecision 10 350 5 = some (RotDir.ccw, false) := by
  unfold syncDecision
  rw [normalize_low_10, normalize_high_10]
  norm_num

theorem syncDecision_180_170_5 : syncDecision 180 170 5 = some (RotDir.cw, false) := by
  unfold syncDecision
  rw [normalize_low_180, normalize_high_180]
  norm_num

theorem syncDecision_180_177_5 : syncDecision 180 177 5 = none := by
  unfold syncDecision
  rw [normalize_low_180, normalize_high_180]
  norm_num

theorem homeClicks_cfg0 : homeClicks cfg0 = 0 := by
  norm_num [homeClicks, pyInt, mathPi, cfg0]

theorem deathTick_fixed (c : ℚ) (s : DeathState) : deathTick c s = s := by
  unfold deathTick valueWrapperTruthy
  cases h : s.can_die <;> simp [h]

theorem deathIter_fixed (c : ℚ) : ∀ (n : ℕ) (s : DeathState), deathIter c n s = s := by
  intro n
  induction n with
  | zero => intro s; rfl
  | succ k ih =>
      intro s
      simp only [deathIter, deathTick_fixed]
      exact ih s

/-! The claims. -/

/-- Claim C1: the claim states that _clicks_to_degrees returns
clicks / resolution * wheel_circumference / (pi * dome_diameter) * 360 and
completes without raising. In the code as written it never does: for every
Observatory instance and every click count the call raises AttributeError,
because __init__ stores the configured dome diameter under the attribute
name diameter while the method reads self.dome_diameter, a name that is
never assigned. -/
theorem clicks_to_degrees_raises_attribute_error :
    ∀ (o : Observatory) (clicks : ℤ),
      o.clicksToDegrees clicks = Except.error PyExc.attributeError :=
  fun _ _ => rfl

/-- Claim C2, counterexample: at the claimed input, target 10, threshold 5
and dome angle 350, check_for_sync does not command a clockwise rotation:
the actual call raises AttributeError before any comparison, and the
direction-selection block applied to these angles commands
counter-clockwise, not clockwise. -/
theorem sync_short_path_counterexample :
    ¬ (checkForSync obs0 10 false = Except.ok (some (RotDir.cw, false)) ∨
       checkForSync obs0 10 false = Except.ok (some (RotDir.cw, true))) ∧
    syncDecision 10 350 5 = some (RotDir.ccw, false) := by
  constructor
  · intro h
    have e : checkForSync obs0 10 false = Except.error PyExc.attributeError := rfl
    rcases h with h | h <;> rw [e] at h <;> exact Except.noConfusion h
  · exact syncDecision_10_350_5

/-- Claim C2 as amended: check_for_sync raises AttributeError while
computing the dome angle for every observatory state, target and force
flag, so no rotation is commanded at all; and the direction-selection
block of lines 366 to 383, applied to target 10, dome angle 350 and
threshold 5, takes the non-wraparound branch (the deadband from 5 to 15
does not cross the seam, as the two normalizations show) and selects a
counter-clockwise rotation, the long 340 degree path, rather than the
short 20 degree clockwise path across the seam. -/
theorem sync_wraparound_long_path :
    (∀ (o : Observatory) (t : ℚ) (f : Bool),
        checkForSync o t f = Except.error PyExc.attributeError) ∧
    normalizeTo360 ((10 : ℚ) - 5) = 5 ∧
    normalizeTo360 ((10 : ℚ) + 5) = 15 ∧
    syncDecision 10 350 5 = some (RotDir.ccw, false) :=
  ⟨fun _ _ _ => rfl, normalize_low_10, normalize_high_10, syncDecision_10_350_5⟩

/-- Claim C3, counterexample: at target 180, dome angle 170 and threshold
5, the dome is not treated as within the deadband: the direction-selection
block commands a clockwise rotation (170 is 10 degrees from 180, beyond
the 5 degree threshold), and the actual call does not complete with a
no-rotation outcome, it raises. -/
theorem sync_deadband_counterexample :
    syncDecision 180 170 5 = some (RotDir.cw, false) ∧
    ¬ (checkForSync obs0 180 false = Except.ok none) := by
  refine ⟨syncDecision_180_170_5, ?_⟩
  intro h
  have e : checkForSync obs0 180 false = Except.error PyExc.attributeError := rfl
  rw [e] at h
  exact Except.noConfusion h

/-- Claim C3 as amended: the deadband around target 180 with threshold 5
is the interval from 175 to 185, a dome angle of 170 lies outside it, and
the direction-selection block then commands a clockwise rotation; an angle
of 177 really would be inside and command nothing; and the actual
check_for_sync call raises AttributeError before the comparison, so no
relay output is asserted, but by crash rather than by the deadband test. -/
theorem sync_deadband_outside :
    normalizeTo360 ((180 : ℚ) - 5) = 175 ∧
    normalizeTo360 ((180 : ℚ) + 5) = 185 ∧
    syncDecision 180 170 5 = some (RotDir.cw, false) ∧
    syncDecision 180 177 5 = none ∧
    checkForSync obs0 180 false = Except.error PyExc.attributeError :=
  ⟨normalize_low_180, normalize_high_180, syncDecision_180_170_5,
    syncDecision_180_177_5, rfl⟩

/-- Claim C4: the claim states that after a restart the counter resumes at
the value last persisted. It never does: for every configuration and every
persisted value the constructor falls back to the home-rotation seed,
because the text-mode read yields a str whose decode attribute does not
exist, and the except block swallows the AttributeError; in particular
with cfg0 and the persisted text 42 the counter starts at 0, not 42. -/
theorem encoder_restart_ignores_persisted :
    (∀ (cfg : Config) (v : ℤ),
        encoderInitCounter cfg (some (toString v)) = homeClicks cfg) ∧
    encoderInitCounter cfg0 (some (toString (42 : ℤ))) ≠ 42 := by
  refine ⟨fun _ _ => rfl, ?_⟩
  have e : encoderInitCounter cfg0 (some (toString (42 : ℤ))) = homeClicks cfg0 := rfl
  rw [e, homeClicks_cfg0]
  decide

/-- Claim C5, counterexample: a message that does not parse as a decimal
number does not leave the accept loop serving subsequent connections; the
loop terminates. -/
theorem malformed_message_counterexample :
    pyParseFloat ("garbled") = Except.error PyExc.valueError ∧
    (handleMessage cfg0 obs0 srv0 ("garbled")).2.2 = false :=
  ⟨rfl, rfl⟩

/-- Claim C5 as amended: for every nonempty message whose text does not
parse as a decimal number, the ValueError is logged by the handler that
wraps the whole accept loop, and the loop terminates rather than serving
subsequent connections. -/
theorem malformed_message_kills_loop :
    ∀ (cfg : Config) (o : Observatory) (st : SrvState) (data : String),
      data ≠ "" →
      pyParseFloat data = Except.error PyExc.valueError →
      (handleMessage cfg o st data).2.2 = false := by
  intro cfg o st data hne hp
  simp only [handleMessage, if_neg hne, hp]

/-- Witness for the amended claim C5 at the concrete message zzz. -/
theorem malformed_message_kills_loop_witness :
    (("zzz" : String) ≠ "") ∧
    pyParseFloat ("zzz") = Except.error PyExc.valueError ∧
    (handleMessage cfg0 obs0 srv0 ("zzz")).2.2 = false :=
  ⟨by decide, rfl, malformed_message_kills_loop cfg0 obs0 srv0 ("zzz") (by decide) rfl⟩

/-- Claim C6: the claim states that the tokens toggle, abort and stop are
dispatched as direct control operations. The server has no keyword
handling at all: each token is handed to float(), which raises ValueError,
so no shutter toggle and no motor deassertion happen and the accept loop
terminates; the one part that does hold is that none of the three tokens
is dispatched to check_for_sync as an azimuth. -/
theorem keyword_messages_not_dispatched :
    pyParseFloat ("toggle") = Except.error PyExc.valueError ∧
    pyParseFloat ("abort") = Except.error PyExc.valueError ∧
    pyParseFloat ("stop") = Except.error PyExc.valueError ∧
    (handleMessage cfg0 obs0 srv0 ("toggle")).2 = (none, false) ∧
    (handleMessage cfg0 obs0 srv0 ("abort")).2 = (none, false) ∧
    (handleMessage cfg0 obs0 srv0 ("stop")).2 = (none, false) :=
  ⟨rfl, rfl, rfl, rfl, rfl, rfl⟩

/-- Claim C7: the claim states that from an armed watchdog with the dome
away from home and ten seconds on the counter, eleven ticks invoke
return_home once, disarm and reset. In the code the countdown body is
unreachable: line 455 tests the shared-value wrapper object instead of
its stored integer, the wrapper is always truthy, and every tick takes the
continue; so after any number of ticks, eleven included, return_home has
been invoked zero times, the counter still reads 10 and the watchdog is
still armed. -/
theorem watchdog_never_fires :
    ∀ n : ℕ,
      (deathIter (cfg0.die_counter_min * 60) n dstate0).returnHomeCalls = 0 ∧
      (deathIter (cfg0.die_counter_min * 60) n dstate0).die_counter = 10 ∧
      (deathIter (cfg0.die_counter_min * 60) n dstate0).can_die = true := by
  intro n
  rw [deathIter_fixed]
  exact ⟨rfl, rfl, rfl⟩

/-- Claim C8: the claim states that return_home toggles the shutter only
when it is open and leaves an already-closed shutter untouched. Starting
from a closed shutter, return_home nevertheless runs the timed toggle:
it drives the close relay pin, holds it for the open duration, and records
the shutter as open afterwards; the second half of the claim does hold,
the subsequent check_for_sync call receives the configured home rotation
with force true. -/
theorem return_home_toggles_closed_shutter :
    obs0.is_shutter_open = false ∧
    (returnHome obs0 cfg0).toggle.pin = RelayPin.closePin ∧
    (returnHome obs0 cfg0).toggle.newIsOpen = true ∧
    (returnHome obs0 cfg0).toggle.hold = obs0.open_time ∧
    (returnHome obs0 cfg0).syncTarget = (cfg0.home_rotation : ℚ) ∧
    (returnHome obs0 cfg0).syncForce = true :=
  ⟨rfl, rfl, rfl, rfl, rfl, rfl⟩

/-- Claim C9: the toggle does persist the flipped state for both starting
states before the operation completes, but reading the record back is not
the identity: recovery applies bool() to the decoded text, every nonempty
string is truthy, and so the persisted text False is read back as True. -/
theorem shutter_persist_recover_not_identity :
    (operateToggle RelayOp.closeOp true 20 25).persisted = pyStr false ∧
    (operateToggle RelayOp.closeOp false 20 25).persisted = pyStr true ∧
    shutterInit (some (pyStr false)) = true ∧
    shutterInit (some (pyStr true)) = true ∧
    shutterInit (some (pyStr false)) ≠ false := by
  refine ⟨rfl, rfl, rfl, rfl, ?_⟩
  decide

/-- Claim C10: for every nonempty message, whatever configuration,
observatory state, server state and message text, handling the message
leaves can_die set and die_counter at the configured ceiling, because both
assignments happen before float() is attempted; this holds on every branch,
parse failure included. -/
theorem socket_arms_watchdog_before_parse :
    ∀ (cfg : Config) (o : Observatory) (st : SrvState) (data : String),
      data ≠ "" →
      (handleMessage cfg o st data).1.can_die = true ∧
      (handleMessage cfg o st data).1.die_counter = cfg.die_counter_min * 60 := by
  intro cfg o st data hne
  simp only [handleMessage, if_neg hne]
  cases hp : pyParseFloat data with
  | error e => simp [hp]
  | ok v =>
      cases hs : checkForSync o v false with
      | error e2 => simp [hp, hs]
      | ok d => simp [hp, hs]

/-- Witness for claim C10 at the concrete nonnumeric message nonsense. -/
theorem socket_arms_watchdog_before_parse_witness :
    (("nonsense" : String) ≠ "") ∧
    ((handleMessage cfg0 obs0 srv0 ("nonsense")).1.can_die = true ∧
     (handleMessage cfg0 obs0 srv0 ("nonsense")).1.die_counter = cfg0.die_counter_min * 60) :=
  ⟨by decide, socket_arms_watchdog_before_parse cfg0 obs0 srv0 ("nonsense") (by decide)⟩
